import Mathlib

/-!
Shallow embedding of the connection lifecycle subsystem of the reql driver
(`src/conn.rs`): NUL-terminated framing, SCRAM handshake message handling,
error classification, pool construction and the connection manager's
validation and breakage checks.  Byte streams are modelled as `List Nat`
(one `Nat` per byte); fallible operations return `Except`.
-/

namespace Reql

/-- UTF-8 bytes of an ASCII string (all constant strings in this development are ASCII). -/
def strBytes (s : String) : List Nat := s.data.map Char.toNat

/-- Is `b` a UTF-8 continuation byte (`0x80 ..= 0xBF`)? -/
def isCont (b : Nat) : Bool := 0x80 ≤ b && b ≤ 0xBF

/-- Strict UTF-8 validity of a byte sequence, as checked by Rust's
`str::from_utf8`: rejects overlong encodings, surrogates and code points
above U+10FFFF. -/
def utf8Valid : List Nat → Bool
  | [] => true
  | b :: rest =>
    if b ≤ 0x7F then utf8Valid rest
    else if 0xC2 ≤ b && b ≤ 0xDF then
      match rest with
      | b2 :: rest2 => isCont b2 && utf8Valid rest2
      | [] => false
    else if b = 0xE0 then
      match rest with
      | b2 :: b3 :: rest3 => (0xA0 ≤ b2 && b2 ≤ 0xBF) && isCont b3 && utf8Valid rest3
      | _ => false
    else if (0xE1 ≤ b && b ≤ 0xEC) || b = 0xEE || b = 0xEF then
      match rest with
      | b2 :: b3 :: rest3 => isCont b2 && isCont b3 && utf8Valid rest3
      | _ => false
    else if b = 0xED then
      match rest with
      | b2 :: b3 :: rest3 => (0x80 ≤ b2 && b2 ≤ 0x9F) && isCont b3 && utf8Valid rest3
      | _ => false
    else if b = 0xF0 then
      match rest with
      | b2 :: b3 :: b4 :: rest4 =>
          (0x90 ≤ b2 && b2 ≤ 0xBF) && isCont b3 && isCont b4 && utf8Valid rest4
      | _ => false
    else if 0xF1 ≤ b && b ≤ 0xF3 then
      match rest with
      | b2 :: b3 :: b4 :: rest4 => isCont b2 && isCont b3 && isCont b4 && utf8Valid rest4
      | _ => false
    else if b = 0xF4 then
      match rest with
      | b2 :: b3 :: b4 :: rest4 =>
          (0x80 ≤ b2 && b2 ≤ 0x8F) && isCont b3 && isCont b4 && utf8Valid rest4
      | _ => false
    else false

/-- The typed errors surfaced by the connection core: `conn` is
`ConnectionError::Other(msg)`, `auth` is `DriverError::Auth(msg)`,
`parse` stands for UTF-8 / JSON parse failures. -/
inductive HsError where
  | conn (msg : List Nat)
  | auth (msg : List Nat)
  | parse
  deriving DecidableEq, Repr

/-- `BufRead::read_until(b'\0')`: the consumed bytes, up to and including
the first `0x00`, or the whole stream when the stream ends without one. -/
def readUntilNul : List Nat → List Nat
  | [] => []
  | b :: rest => if b = 0 then [b] else b :: readUntilNul rest

/-- The payload `parse_server_response` works on: the consumed bytes with
the last byte removed (`resp.pop()` in the source, unconditional). -/
def payloadOf (stream : List Nat) : List Nat := (readUntilNul stream).dropLast

/-- `parse_server_response` (src/conn.rs:173-198): read one NUL-terminated
message, drop the final byte, then classify: empty payload is a connection
error with a fixed message, a non-UTF-8 payload is a parse error, a payload
not starting with the byte of the opening brace (0x7B) is a connection
error carrying the payload itself, anything else is returned. -/
def parse_server_response (stream : List Nat) : Except HsError (List Nat) :=
  let resp := payloadOf stream
  if resp.isEmpty then
    .error (.conn (strBytes "unable to connect for an unknown reason"))
  else if utf8Valid resp = false then
    .error .parse
  else if resp.head? = some 0x7B then
    .ok resp
  else
    .error (.conn resp)

/-- The `AuthResponse` wire envelope (spec section 3; declared in the
external `types` module): `success`, optional `authentication`, optional
`error`, optional `error_code`.  Strings are byte lists. -/
structure AuthResponse where
  success : Bool
  authentication : Option (List Nat)
  error : Option (List Nat)
  error_code : Option Int
  deriving DecidableEq, Repr

/-- The failure branch shared by `client_final` (src/conn.rs:232-243) and
`parse_server_final` (src/conn.rs:278-289): the message is the `error`
field when present, else the raw payload; `Some(10 ... 20)` on
`error_code` gives `DriverError::Auth`, anything else
`ConnectionError::Other`. -/
def authFailure (info : AuthResponse) (resp : List Nat) : HsError :=
  let err := match info.error with
    | some e => e
    | none => resp
  match info.error_code with
  | some c => if 10 ≤ c ∧ c ≤ 20 then .auth err else .conn err
  | none => .conn err

/-- A lowercase hex digit as a byte. -/
def hexDigit (d : Nat) : Nat := if d < 10 then 0x30 + d else 0x57 + (d - 10)

/-- serde_json's escaping of one byte inside a JSON string: quote and
backslash are backslash-escaped, the named control escapes are used for
0x08, 0x09, 0x0A, 0x0C, 0x0D, other bytes below 0x20 become a
lowercase u-escape, everything else is emitted unchanged. -/
def jsonEscapeByte (b : Nat) : List Nat :=
  if b = 0x22 then [0x5C, 0x22]
  else if b = 0x5C then [0x5C, 0x5C]
  else if b = 0x08 then [0x5C, 0x62]
  else if b = 0x09 then [0x5C, 0x74]
  else if b = 0x0A then [0x5C, 0x6E]
  else if b = 0x0C then [0x5C, 0x66]
  else if b = 0x0D then [0x5C, 0x72]
  else if b < 0x20 then [0x5C, 0x75, 0x30, 0x30, hexDigit (b / 16), hexDigit (b % 16)]
  else [b]

/-- A JSON string literal: quote, escaped bytes, quote. -/
def jsonString (bs : List Nat) : List Nat :=
  [0x22] ++ bs.flatMap jsonEscapeByte ++ [0x22]

/-- The `AuthRequest` wire envelope (spec section 3; declared in the
external `types` module), fields in declaration order. -/
structure AuthRequest where
  protocol_version : Int
  authentication_method : List Nat
  authentication : List Nat
  deriving DecidableEq, Repr

/-- serde_json serialization of an `AuthRequest` whose
`protocol_version` is 0, fields in declaration order.  0x7B/0x7D are the
braces, 0x3A the colon, 0x2C the comma. -/
def serializeAuthRequest (ar : AuthRequest) : List Nat :=
  [0x7B] ++ jsonString (strBytes "protocol_version") ++ [0x3A, 0x30, 0x2C]
    ++ jsonString (strBytes "authentication_method") ++ [0x3A]
    ++ jsonString ar.authentication_method ++ [0x2C]
    ++ jsonString (strBytes "authentication") ++ [0x3A]
    ++ jsonString ar.authentication ++ [0x7D]

/-- The `AuthConfirmation` wire envelope (spec section 3). -/
structure AuthConfirmation where
  authentication : List Nat
  deriving DecidableEq, Repr

/-- serde_json serialization of an `AuthConfirmation`. -/
def serializeAuthConfirmation (a : AuthConfirmation) : List Nat :=
  [0x7B] ++ jsonString (strBytes "authentication") ++ [0x3A]
    ++ jsonString a.authentication ++ [0x7D]

/-- `client_first` (src/conn.rs:200-218): given the SCRAM client-first
message for `(user, password)`, build the `AuthRequest` with
`protocol_version = 0` and method `"SCRAM-SHA-256"`, serialize it and push
a single `0x00` terminator.  The SCRAM computation itself is delegated to
the external scram crate, so the client-first string is a parameter. -/
def client_first (clientFirstMsg : List Nat) : AuthRequest × List Nat :=
  let ar : AuthRequest :=
    { protocol_version := 0
      authentication_method := strBytes "SCRAM-SHA-256"
      authentication := clientFirstMsg }
  (ar, serializeAuthRequest ar ++ [0])

/-- `client_final` (src/conn.rs:221-266) after the JSON parse of the
server's reply: on `success = false` classify via `authFailure`; on
success with an `authentication` field, feed it to the SCRAM state (the
external `handle_server_first`/`client_final`, passed as `handle`), wrap
in an `AuthConfirmation`, serialize and NUL-terminate; absent
`authentication` is a connection error with a fixed message. -/
def client_final (handle : List Nat → List Nat) (info : AuthResponse)
    (resp : List Nat) : Except HsError (List Nat) :=
  if info.success = false then
    .error (authFailure info resp)
  else
    match info.authentication with
    | some auth =>
        let confirmation : AuthConfirmation := { authentication := handle auth }
        .ok (serializeAuthConfirmation confirmation ++ [0])
    | none =>
        .error (.conn (strBytes "Server did not send authentication info."))

/-- `parse_server_final` (src/conn.rs:268-294) after the JSON parse: on
`success = false` classify via `authFailure`, otherwise succeed (the SCRAM
final verification is delegated to the external scram crate). -/
def parse_server_final (info : AuthResponse) (resp : List Nat) :
    Except HsError Unit :=
  if info.success = false then
    .error (authFailure info resp)
  else
    .ok ()

/-- TLS configuration (src/conn.rs:31-34). -/
structure SslCfg where
  ca_certs : List Nat
  deriving DecidableEq, Repr

/-- `ConnectOpts` (src/conn.rs:20-29): endpoints as byte strings, the
internal `server` field selects the endpoint for one pool. -/
structure ConnectOpts where
  servers : List (List Nat)
  db : List Nat
  user : List Nat
  password : List Nat
  retries : Nat
  ssl : Option SslCfg
  server : Option (List Nat)
  deriving DecidableEq, Repr

/-- A pool as configured in `connect` (src/conn.rs:96-113):
`pool_size(100)`, `min_idle(Some(10))`, and the `ConnectionManager`
holding the options with `server` set to the pool's endpoint. -/
structure PoolEntry where
  maxSize : Nat
  minIdle : Nat
  manager : ConnectOpts
  deriving DecidableEq, Repr

/-- Modelled from the spec: the process-wide `Client` state of the external
`session` module — the stored configuration record ("stored once and read
concurrently — it is immutable after connect() returns") and the
process-wide pool set ("installed exactly once"). -/
structure ClientState where
  config : Option ConnectOpts
  pool : Option (List PoolEntry)
  deriving DecidableEq, Repr

/-- Modelled from the spec: `Client::set_config` — the configuration record
is stored once; a write when a configuration is already installed leaves it
unchanged. -/
def set_config (st : ClientState) (c : ConnectOpts) : ClientState :=
  match st.config with
  | some _ => st
  | none => { st with config := some c }

/-- Modelled from the spec: `Client::set_pool` — the pool set is installed
atomically, exactly once; a second install leaves the first untouched. -/
def set_pool (st : ClientState) (ps : List PoolEntry) : ClientState :=
  match st.pool with
  | some _ => st
  | none => { st with pool := some ps }

/-- The pool-building loop of `connect` (src/conn.rs:96-113): for each
endpoint in `opts.servers`, a pool with `max_size = 100`, `min_idle = 10`,
managed by a `ConnectionManager` over the options with `server` set to
that endpoint. -/
def buildPools (opts : ConnectOpts) : List PoolEntry :=
  opts.servers.map fun s =>
    { maxSize := 100
      minIdle := 10
      manager := { opts with server := some s } }

/-- `ConnectOpts::connect` (src/conn.rs:86-117): store the configuration,
then, when the pool set is already installed, do nothing and return
success; otherwise build one pool per endpoint and install the set.  The
returned `Bool` is the `Result<()>` outcome (`true` = `Ok(())`). -/
def connect (st : ClientState) (opts : ConnectOpts) : ClientState × Bool :=
  let st := set_config st opts
  if st.pool.isSome then
    (st, true)
  else
    (set_pool st (buildPools opts), true)

/-- `Connection` (src/conn.rs:50-56): the socket aside, a 64-bit query
token and a broken flag. -/
structure Connection where
  token : Nat
  broken : Bool
  deriving DecidableEq, Repr

/-- The response `is_valid` requires, byte for byte:
`\x7b"t":1,"r":[1]\x7d` with literal braces. -/
def expectedValidResponse : List Nat :=
  strBytes "\x7b\"t\":1,\"r\":[1]\x7d"

/-- `ConnectionManager::is_valid` (src/conn.rs:312-330): increment the
token (wrapping 64-bit add), write the trivial START query, read the
response (the write/read go through the external query framing layer,
which per the spec leaves the connection fields alone; the response bytes
are a parameter), require valid UTF-8, then require byte equality with
`expectedValidResponse`; on mismatch return the fixed connection error. -/
def is_valid (conn : Connection) (resp : List Nat) :
    Connection × Except HsError Unit :=
  let conn := { conn with token := (conn.token + 1) % 2 ^ 64 }
  if utf8Valid resp = false then
    (conn, .error .parse)
  else if resp = expectedValidResponse then
    (conn, .ok ())
  else
    (conn, .error (.conn (strBytes "Unexpected response from server.")))

/-- The outcome of `TcpStream::take_error` on the connection's socket:
`Ok(None)`, `Ok(Some(_))`, or `Err(_)`. -/
inductive TakeErrorResult where
  | okNone
  | okSome
  | err
  deriving DecidableEq, Repr

/-- `ConnectionManager::has_broken` (src/conn.rs:332-341): true when the
broken flag is set, when the socket reports a pending error, or when
probing for one fails. -/
def has_broken (conn : Connection) (te : TakeErrorResult) : Bool :=
  if conn.broken then
    true
  else
    match te with
    | .okSome => true
    | .err => true
    | .okNone => false

/-- The default options (src/conn.rs:36-48). -/
def defaultOpts : ConnectOpts :=
  { servers := [strBytes "localhost:28015"]
    db := strBytes "test"
    user := strBytes "admin"
    password := strBytes ""
    retries := 5
    ssl := none
    server := none }

theorem readUntilNul_of_not_mem (stream : List Nat) (h : 0 ∉ stream) :
    readUntilNul stream = stream := by
  induction stream with
  | nil => rfl
  | cons b rest ih =>
    simp only [List.mem_cons, not_or] at h
    obtain ⟨h1, h2⟩ := h
    simp [readUntilNul, Ne.symm h1, ih h2]

/-- C6: the NUL-terminated read classifies its payload: empty payload is a
fixed connection error, a non-UTF-8 payload is a parse error, a valid
UTF-8 payload not starting with the opening-brace byte is a connection
error carrying the payload itself, and every other payload is returned
successfully. -/
theorem parse_server_response_classification (stream : List Nat) :
    (payloadOf stream = [] →
      parse_server_response stream =
        .error (.conn (strBytes "unable to connect for an unknown reason"))) ∧
    (payloadOf stream ≠ [] → utf8Valid (payloadOf stream) = false →
      parse_server_response stream = .error .parse) ∧
    (payloadOf stream ≠ [] → utf8Valid (payloadOf stream) = true →
      (payloadOf stream).head? ≠ some 0x7B →
      parse_server_response stream = .error (.conn (payloadOf stream))) ∧
    (payloadOf stream ≠ [] → utf8Valid (payloadOf stream) = true →
      (payloadOf stream).head? = some 0x7B →
      parse_server_response stream = .ok (payloadOf stream)) := by
  unfold parse_server_response
  refine ⟨fun h1 => ?_, fun h1 h2 => ?_, fun h1 h2 h3 => ?_, fun h1 h2 h3 => ?_⟩ <;>
    simp_all [List.isEmpty_iff]

/-- Witness for the classification theorem at four concrete streams, one
per branch. -/
theorem parse_server_response_classification_witness :
    parse_server_response [0] =
      .error (.conn (strBytes "unable to connect for an unknown reason")) ∧
    parse_server_response [0xFF, 0xFF, 0] = .error .parse ∧
    parse_server_response (strBytes "ERROR: banned" ++ [0]) =
      .error (.conn (strBytes "ERROR: banned")) ∧
    parse_server_response (strBytes "\x7bok" ++ [0]) =
      .ok (strBytes "\x7bok") :=
  ⟨(parse_server_response_classification [0]).1 (by decide),
   (parse_server_response_classification [0xFF, 0xFF, 0]).2.1 (by decide) (by decide),
   (parse_server_response_classification (strBytes "ERROR: banned" ++ [0])).2.2.1
     (by decide) (by decide) (by decide),
   (parse_server_response_classification (strBytes "\x7bok" ++ [0])).2.2.2
     (by decide) (by decide) (by decide)⟩

/-- C9: the read drops the last consumed byte unconditionally, so a stream
that ends without a 0x00 terminator loses its final data byte instead of
the read failing, and a one-byte unterminated stream is reported as the
empty-payload connection error. -/
theorem payload_drops_last_byte (stream : List Nat) (hne : stream ≠ [])
    (hno : 0 ∉ stream) :
    payloadOf stream = stream.dropLast ∧
    (∀ b, stream = [b] →
      parse_server_response stream =
        .error (.conn (strBytes "unable to connect for an unknown reason"))) := by
  constructor
  · unfold payloadOf
    rw [readUntilNul_of_not_mem stream hno]
  · intro b hb
    subst hb
    have hp : payloadOf [b] = [] := by
      unfold payloadOf
      rw [readUntilNul_of_not_mem [b] hno]
      rfl
    exact (parse_server_response_classification [b]).1 hp

/-- Witness: a two-byte unterminated stream loses its final byte, and a
one-byte unterminated stream gives the empty-payload error. -/
theorem payload_drops_last_byte_witness :
    payloadOf [65, 66] = [65] ∧
    parse_server_response [65] =
      .error (.conn (strBytes "unable to connect for an unknown reason")) :=
  ⟨(payload_drops_last_byte [65, 66] (by decide) (by decide)).1,
   (payload_drops_last_byte [65] (by decide) (by decide)).2 65 rfl⟩

/-- C1: for an `AuthResponse` with `success = false`, both handshake read
steps fail with an auth-kind error exactly when `error_code` is present
and lies in the inclusive range 10..20, and with a connection-kind error
otherwise; the message carried is the `error` field when present, else
the raw payload. -/
theorem auth_failure_classification (handle : List Nat → List Nat)
    (info : AuthResponse) (resp : List Nat) (hs : info.success = false) :
    (client_final handle info resp =
        .error (.auth (info.error.getD resp)) ↔
      ∃ c, info.error_code = some c ∧ 10 ≤ c ∧ c ≤ 20) ∧
    (parse_server_final info resp =
        .error (.auth (info.error.getD resp)) ↔
      ∃ c, info.error_code = some c ∧ 10 ≤ c ∧ c ≤ 20) ∧
    ((¬∃ c, info.error_code = some c ∧ 10 ≤ c ∧ c ≤ 20) →
      client_final handle info resp =
        .error (.conn (info.error.getD resp)) ∧
      parse_server_final info resp =
        .error (.conn (info.error.getD resp))) := by
  obtain ⟨s, a, e, ec⟩ := info
  simp only at hs
  subst hs
  cases ec with
  | none => cases e <;> simp [client_final, parse_server_final, authFailure]
  | some c =>
    by_cases hc : 10 ≤ c ∧ c ≤ 20 <;>
      cases e <;>
        simp [client_final, parse_server_final, authFailure, hc, Option.getD]

/-- Witness: error code 12 with an `error` field gives an auth error
carrying that field; error code 21 gives a connection error. -/
theorem auth_failure_classification_witness :
    client_final id
        ⟨false, none, some (strBytes "Wrong password"), some 12⟩
        (strBytes "raw")
      = .error (.auth ((some (strBytes "Wrong password")).getD (strBytes "raw"))) ∧
    (client_final id ⟨false, none, none, some 21⟩ (strBytes "raw")
        = .error (.conn ((none : Option (List Nat)).getD (strBytes "raw"))) ∧
      parse_server_final ⟨false, none, none, some 21⟩ (strBytes "raw")
        = .error (.conn ((none : Option (List Nat)).getD (strBytes "raw")))) :=
  ⟨(auth_failure_classification id
      ⟨false, none, some (strBytes "Wrong password"), some 12⟩
      (strBytes "raw") rfl).1.mpr ⟨12, rfl, by norm_num, by norm_num⟩,
   (auth_failure_classification id ⟨false, none, none, some 21⟩
      (strBytes "raw") rfl).2.2 (by rintro ⟨c, hc, h1, h2⟩; cases hc; omega)⟩

/-- C7: a `success = true` response carrying no `authentication` field
makes `client_final` fail with the fixed connection error message. -/
theorem client_final_missing_authentication (handle : List Nat → List Nat)
    (info : AuthResponse) (resp : List Nat) (hs : info.success = true)
    (ha : info.authentication = none) :
    client_final handle info resp =
      .error (.conn (strBytes "Server did not send authentication info.")) := by
  obtain ⟨s, a, e, ec⟩ := info
  simp only at hs ha
  subst hs
  subst ha
  simp [client_final]

/-- Witness: the bare successful response with no fields set. -/
theorem client_final_missing_authentication_witness :
    client_final id ⟨true, none, none, none⟩ (strBytes "raw")
      = .error (.conn (strBytes "Server did not send authentication info.")) :=
  client_final_missing_authentication id ⟨true, none, none, none⟩
    (strBytes "raw") rfl rfl

theorem zero_not_mem_jsonEscapeByte (b : Nat) : 0 ∉ jsonEscapeByte b := by
  unfold jsonEscapeByte hexDigit
  split_ifs <;> simp_all <;> omega

theorem zero_not_mem_jsonString (bs : List Nat) : 0 ∉ jsonString bs := by
  intro h
  simp only [jsonString, List.mem_append] at h
  rcases h with (h | h) | h
  · simp at h
  · rw [List.mem_flatMap] at h
    obtain ⟨a, _, h0⟩ := h
    exact zero_not_mem_jsonEscapeByte a h0
  · simp at h

theorem zero_not_mem_serializeAuthRequest (ar : AuthRequest) :
    0 ∉ serializeAuthRequest ar := by
  intro h
  have h1 := zero_not_mem_jsonString (strBytes "protocol_version")
  have h2 := zero_not_mem_jsonString (strBytes "authentication_method")
  have h3 := zero_not_mem_jsonString ar.authentication_method
  have h4 := zero_not_mem_jsonString (strBytes "authentication")
  have h5 := zero_not_mem_jsonString ar.authentication
  simp only [serializeAuthRequest, List.mem_append, List.mem_cons,
    List.not_mem_nil, or_false] at h
  tauto

/-- C8: the client-first handshake message is the serde serialization of
an `AuthRequest` with `protocol_version = 0`, method exactly
`SCRAM-SHA-256` and `authentication` the SCRAM client-first string,
followed by exactly one 0x00 terminator byte (the serialized JSON itself
contains no 0x00). -/
theorem client_first_message_shape (cf : List Nat) :
    (client_first cf).1.protocol_version = 0 ∧
    (client_first cf).1.authentication_method = strBytes "SCRAM-SHA-256" ∧
    (client_first cf).1.authentication = cf ∧
    (client_first cf).2 = serializeAuthRequest (client_first cf).1 ++ [0] ∧
    (client_first cf).2.count 0 = 1 ∧
    (client_first cf).2.getLast? = some 0 := by
  refine ⟨rfl, rfl, rfl, rfl, ?_, ?_⟩
  · show (serializeAuthRequest _ ++ [0]).count 0 = 1
    rw [List.count_append,
      List.count_eq_zero.mpr (zero_not_mem_serializeAuthRequest _)]
    decide
  · show (serializeAuthRequest _ ++ [0]).getLast? = some 0
    simp

/-- C10: on every path — parse failure, mismatch, or success — `is_valid`
leaves the broken flag untouched and changes only the token, by the
wrapping 64-bit increment, which is an increment by exactly 1 whenever the
token is below the 64-bit bound. -/
theorem is_valid_frame (conn : Connection) (resp : List Nat) :
    (is_valid conn resp).1.broken = conn.broken ∧
    (is_valid conn resp).1.token = (conn.token + 1) % 2 ^ 64 ∧
    (conn.token + 1 < 2 ^ 64 →
      (is_valid conn resp).1.token = conn.token + 1) := by
  have key : (is_valid conn resp).1 =
      { conn with token := (conn.token + 1) % 2 ^ 64 } := by
    unfold is_valid
    dsimp only
    split_ifs <;> rfl
  refine ⟨?_, ?_, fun h => ?_⟩ <;> rw [key]
  exact Nat.mod_eq_of_lt h

/-- Witness: a fresh connection keeps `broken = false` and moves its token
from 0 to 1 across a failed validation. -/
theorem is_valid_frame_witness :
    (is_valid ⟨0, false⟩ (strBytes "nope")).1.broken = false ∧
    (is_valid ⟨0, false⟩ (strBytes "nope")).1.token = 1 :=
  ⟨(is_valid_frame ⟨0, false⟩ (strBytes "nope")).1,
   (is_valid_frame ⟨0, false⟩ (strBytes "nope")).2.2 (by norm_num)⟩

/-- C2 counterexample: on a healthy connection, a mismatched (valid UTF-8)
validator response yields the fixed connection error, yet `has_broken`
afterwards is still false (the broken flag was never set and the socket
reports no error); moreover a non-UTF-8 mismatch yields a parse error, not
the connection error. -/
theorem is_valid_mismatch_not_broken :
    (is_valid ⟨0, false⟩ (strBytes "nope")).2 =
      .error (.conn (strBytes "Unexpected response from server.")) ∧
    has_broken (is_valid ⟨0, false⟩ (strBytes "nope")).1 .okNone = false ∧
    (is_valid ⟨0, false⟩ [0xFF]).2 = .error .parse := by
  refine ⟨rfl, rfl, rfl⟩

/-- C2 amended: a valid UTF-8 response differing from the expected bytes
makes `is_valid` return the fixed connection error; the broken flag is
left unchanged, so a later `has_broken` (socket reporting no pending
error) returns exactly the prior broken status, not necessarily true. -/
theorem is_valid_mismatch (conn : Connection) (resp : List Nat)
    (hu : utf8Valid resp = true) (hne : resp ≠ expectedValidResponse) :
    (is_valid conn resp).2 =
      .error (.conn (strBytes "Unexpected response from server.")) ∧
    (is_valid conn resp).1.broken = conn.broken ∧
    has_broken (is_valid conn resp).1 .okNone = conn.broken := by
  unfold is_valid has_broken
  simp [hu, hne]

/-- Witness for the amended claim on a healthy connection and the
response bytes of the string nope. -/
theorem is_valid_mismatch_witness :
    (is_valid ⟨0, false⟩ (strBytes "nope")).2 =
      .error (.conn (strBytes "Unexpected response from server.")) ∧
    has_broken (is_valid ⟨0, false⟩ (strBytes "nope")).1 .okNone = false :=
  ⟨(is_valid_mismatch ⟨0, false⟩ (strBytes "nope") (by decide) (by decide)).1,
   (is_valid_mismatch ⟨0, false⟩ (strBytes "nope") (by decide) (by decide)).2.2⟩

/-- C3: after a successful `connect` returns, the stored configuration
record never changes again: a later `connect`, with any options, leaves
it exactly as the first call left it. -/
theorem connect_config_immutable (st : ClientState)
    (opts opts2 : ConnectOpts) (h : (connect st opts).2 = true) :
    (connect (connect st opts).1 opts2).1.config =
      (connect st opts).1.config := by
  obtain ⟨cfg, pl⟩ := st
  cases cfg <;> cases pl <;>
    simp [connect, set_config, set_pool]

/-- Witness: two successive connect calls from the empty client state,
the second with different options, keep the first stored configuration. -/
theorem connect_config_immutable_witness :
    (connect (connect ⟨none, none⟩ defaultOpts).1
        { defaultOpts with db := strBytes "prod" }).1.config =
      (connect ⟨none, none⟩ defaultOpts).1.config :=
  connect_config_immutable ⟨none, none⟩ defaultOpts
    { defaultOpts with db := strBytes "prod" } rfl

/-- C4: when the process-wide pool set is already installed, `connect`
creates no pools — the pool set is unchanged — and returns success. -/
theorem connect_idempotent_pools (st : ClientState) (opts : ConnectOpts)
    (h : st.pool.isSome = true) :
    (connect st opts).1.pool = st.pool ∧ (connect st opts).2 = true := by
  obtain ⟨cfg, pl⟩ := st
  cases pl with
  | none => simp at h
  | some ps => cases cfg <;> simp [connect, set_config, set_pool]

/-- Witness: with an installed (empty) pool set, connect changes nothing
and succeeds. -/
theorem connect_idempotent_pools_witness :
    (connect ⟨none, some []⟩ defaultOpts).1.pool = some [] ∧
    (connect ⟨none, some []⟩ defaultOpts).2 = true :=
  connect_idempotent_pools ⟨none, some []⟩ defaultOpts rfl

/-- C5: a first successful `connect` (no pool set installed yet) installs
exactly one pool per configured endpoint, in order, each with
`max_size = 100`, `min_idle = 10`, and managed over the options with
`server` set to that endpoint. -/
theorem connect_builds_pools (st : ClientState) (opts : ConnectOpts)
    (h : st.pool = none) :
    ∃ pools, (connect st opts).1.pool = some pools ∧
      (connect st opts).2 = true ∧
      pools.length = opts.servers.length ∧
      ∀ (i : Nat) (s : List Nat), opts.servers[i]? = some s →
        pools[i]? = some
          ({ maxSize := 100
             minIdle := 10
             manager := { opts with server := some s } } : PoolEntry) := by
  obtain ⟨cfg, pl⟩ := st
  dsimp only at h
  subst h
  refine ⟨buildPools opts, ?_, ?_, ?_, ?_⟩
  · cases cfg <;> simp [connect, set_config, set_pool]
  · cases cfg <;> simp [connect, set_config, set_pool]
  · simp [buildPools]
  · intro i s hs
    simp [buildPools, List.getElem?_map, hs]

/-- Witness: from the empty client state with two endpoints, connect
builds both pools with the stated shape. -/
theorem connect_builds_pools_witness :
    ∃ pools,
      (connect ⟨none, none⟩
          { defaultOpts with servers := [strBytes "a:1", strBytes "b:2"] }).1.pool
        = some pools ∧
      (connect ⟨none, none⟩
          { defaultOpts with servers := [strBytes "a:1", strBytes "b:2"] }).2
        = true ∧
      pools.length =
        ({ defaultOpts with
            servers := [strBytes "a:1", strBytes "b:2"] } : ConnectOpts).servers.length ∧
      ∀ (i : Nat) (s : List Nat),
        ({ defaultOpts with
            servers := [strBytes "a:1", strBytes "b:2"] } : ConnectOpts).servers[i]?
          = some s →
        pools[i]? = some
          ({ maxSize := 100
             minIdle := 10
             manager :=
               { ({ defaultOpts with
                     servers := [strBytes "a:1", strBytes "b:2"] } : ConnectOpts) with
                   server := some s } } : PoolEntry) :=
  connect_builds_pools ⟨none, none⟩
    { defaultOpts with servers := [strBytes "a:1", strBytes "b:2"] } rfl

end Reql
